import Mathlib

/-!
Verification of the session controller in `src/components/AITuringTest.jsx`.

The component `AIJudge` holds seven pieces of React state (`currentState`,
`question`, `userAnswer`, `aiAnswer`, `verdict`, `isProcessing`, `error`) and
drives them through three handlers (`generateQuestion`, `handleSubmitAnswer`,
`startNewTest`).  Each network round trip (`model.generateContent`) either
throws or yields a completion string; we model one round trip by `GenResult`.
A handler invocation is modelled atomically as a function from the session
captured at the start of the invocation (React closures read the render-time
values) and the oracle results of its round trips, to the resulting session
together with the list of prompts it sent.
-/

set_option maxRecDepth 10000

namespace AITuringTest

/-- The values of the `currentState` React state: 'initial', 'answering',
'complete'. -/
inductive SState where
  | initial
  | answering
  | complete
deriving DecidableEq, Repr

/-- The React state of the `AIJudge` component (AITuringTest.jsx:48-54). -/
structure Session where
  state : SState
  question : String
  userAnswer : String
  aiAnswer : String
  verdict : String
  isProcessing : Bool
  error : String
deriving DecidableEq, Repr

/-- The initial session: `useState` initial values (AITuringTest.jsx:48-54). -/
def initSession : Session :=
  { state := .initial, question := "", userAnswer := "", aiAnswer := "",
    verdict := "", isProcessing := false, error := "" }

/-- Outcome of one `model.generateContent` round trip: the awaited chain
either throws (network/service failure) or yields the completion text. -/
inductive GenResult where
  | failure
  | success (text : String)
deriving DecidableEq, Repr

/-- QUESTION_PROMPT (AITuringTest.jsx:12). -/
def QUESTION_PROMPT : String :=
  "Generate an interesting, open-ended question that could reveal thought patterns. The question should encourage detailed, thoughtful responses. Only respond with the question itself, nothing else. The question should be answerable with a single line"

/-- AI_ANSWER_PROMPT (AITuringTest.jsx:14). -/
def AI_ANSWER_PROMPT : String :=
  "You are participating in a conversation. Answer the following question thoughtfully and naturally, as if you were having a real conversation: "

/-- JUDGE_PROMPT (AITuringTest.jsx:16-33), exactly as in the source.  Note
that the template text contains no occurrence of the placeholder tokens
used by `getJudgement`. -/
def JUDGE_PROMPT : String :=
  "You are an AI judge analyzing two responses to the same question. One response is from a human and one is from an AI. \n\nYour task is to determine which is which and provide your analysis in markdown format using this structure:\n\n# AI Judge's Analysis\n\n## Response Analysis\n\n### Response 1\n\n*Analysis:* [Your detailed analysis of why this seems human or AI]\n\n### Response 2\n\n*Analysis:* [Your detailed analysis of why this seems human or AI]\n\n## Verdict\n[Your final determination of which response is human vs AI and a brief summary of key factors]"

/-- JavaScript `String.prototype.replace` with a string pattern replaces only
the first occurrence; when the pattern does not occur the string is returned
unchanged.  This is that operation on the character list. -/
def replaceFirstList (pat rep : List Char) : List Char → List Char
  | [] => []
  | c :: cs =>
    if pat.isPrefixOf (c :: cs) then rep ++ (c :: cs).drop pat.length
    else c :: replaceFirstList pat rep cs

/-- `s.replace(pat, rep)` in JavaScript (string pattern, first occurrence). -/
def jsReplace (s pat rep : String) : String :=
  ⟨replaceFirstList pat.data rep.data s.data⟩

/-- `true` iff `pat` occurs as a contiguous substring. -/
def containsSub (pat : List Char) : List Char → Bool
  | [] => pat.isEmpty
  | c :: cs => pat.isPrefixOf (c :: cs) || containsSub pat cs

/-- The prompt built by `getJudgement` (AITuringTest.jsx:86-90):
`JUDGE_PROMPT.replace('{question}', question).replace('{humanResponse}',
userAnswer).replace('{aiResponse}', aiAnswer)`. -/
def judgePromptOf (question userAnswer aiAnswer : String) : String :=
  jsReplace (jsReplace (jsReplace JUDGE_PROMPT "{question}" question)
    "{humanResponse}" userAnswer) "{aiResponse}" aiAnswer

/-- The JavaScript guard `!text.trim()`: true iff the string is empty or
whitespace-only, i.e. trimming both ends leaves nothing.  (JavaScript's
WhiteSpace set is slightly larger than `Char.isWhitespace`; the strings in
this development use the common core.) -/
def isBlank (s : String) : Bool := s.data.all Char.isWhitespace

/-- The catch-branch message of `generateQuestion` (jsx:70). -/
def errQuestion : String := "Failed to generate question. Please try again."

/-- The catch-branch message of `handleSubmitAnswer` (jsx:118). -/
def errProcess : String := "An error occurred. Please try again."

/-- The validation message of `handleSubmitAnswer` (jsx:103). -/
def errValidation : String := "Please enter your answer before submitting."

/-- Both network handlers begin with `setIsProcessing(true); setError('')`
(AITuringTest.jsx:57-58 and 107-108): the session while the round trips are
in flight. -/
def actionInFlight (s : Session) : Session :=
  { s with isProcessing := true, error := "" }

/-- `generateQuestion` (AITuringTest.jsx:56-74), run atomically against the
oracle result of its single round trip.  Returns the resulting session and
the prompts sent.  An empty (whitespace-only) completion throws, landing in
the same catch as a service failure; `finally` clears `isProcessing`. -/
def generateQuestion (s : Session) (res : GenResult) : Session × List String :=
  let s1 := actionInFlight s
  match res with
  | .failure =>
    ({ s1 with error := errQuestion, isProcessing := false }, [QUESTION_PROMPT])
  | .success t =>
    if isBlank t then
      ({ s1 with error := errQuestion, isProcessing := false }, [QUESTION_PROMPT])
    else
      ({ s1 with question := t, state := .answering, isProcessing := false },
        [QUESTION_PROMPT])

/-- `handleSubmitAnswer` (AITuringTest.jsx:101-122) with the two round trips
(`getAIAnswer` jsx:76-84, then `getJudgement` jsx:86-99) resolved by the
oracle.  The reads `question`, `userAnswer`, `aiAnswer` inside the handler
are the render-time values `s.question`, `s.userAnswer`, `s.aiAnswer` (the
`setAiAnswer` on jsx:111 does not change the closure that `getJudgement`
reads).  `setAiAnswer` is issued before `getJudgement`, so the new AI answer
is part of the resulting session even when the judge call fails. -/
def handleSubmitAnswer (s : Session) (aiRes judgeRes : GenResult) :
    Session × List String :=
  if isBlank s.userAnswer then
    ({ s with error := errValidation }, [])
  else
    let s1 := actionInFlight s
    let prompt1 := AI_ANSWER_PROMPT ++ s.question
    match aiRes with
    | .failure =>
      ({ s1 with error := errProcess, isProcessing := false }, [prompt1])
    | .success t =>
      if isBlank t then
        ({ s1 with error := errProcess, isProcessing := false }, [prompt1])
      else
        let s2 := { s1 with aiAnswer := t }
        let prompt2 := judgePromptOf s.question s.userAnswer s.aiAnswer
        match judgeRes with
        | .failure =>
          ({ s2 with error := errProcess, isProcessing := false }, [prompt1, prompt2])
        | .success v =>
          if isBlank v then
            ({ s2 with error := errProcess, isProcessing := false }, [prompt1, prompt2])
          else
            ({ s2 with verdict := v, state := .complete, isProcessing := false },
              [prompt1, prompt2])

/-- `startNewTest` (AITuringTest.jsx:124-131).  It resets the six fields it
names; it never writes `isProcessing`. -/
def startNewTest (s : Session) : Session :=
  { s with state := .initial, question := "", userAnswer := "", aiAnswer := "",
           verdict := "", error := "" }

/-- The user-level generate-question trigger: the button is rendered only
when `currentState === 'initial'` (jsx:152) and is `disabled={isProcessing}`
(jsx:156), so a click reaches the handler only in that configuration. -/
def generateQuestionTrigger (s : Session) (res : GenResult) :
    Session × List String :=
  if s.state = .initial ∧ s.isProcessing = false then generateQuestion s res
  else (s, [])

/-- The user-level submit-answer trigger: the button is rendered only when
`currentState === 'answering'` (jsx:165) and is `disabled={isProcessing}`
(jsx:180). -/
def submitAnswerTrigger (s : Session) (aiRes judgeRes : GenResult) :
    Session × List String :=
  if s.state = .answering ∧ s.isProcessing = false then
    handleSubmitAnswer s aiRes judgeRes
  else (s, [])

/-- The user-level start-new-test trigger: the button is rendered only when
`currentState === 'complete'` (jsx:188). -/
def startNewTestTrigger (s : Session) : Session :=
  if s.state = .complete then startNewTest s else s

/-- Typing in the answer textarea: `onChange` runs `setUserAnswer`
(jsx:173); the textarea is rendered only in 'answering' (jsx:165) and is
`disabled={isProcessing}` (jsx:176). -/
def setUserAnswer (s : Session) (t : String) : Session :=
  { s with userAnswer := t }

/-- `formatOutput` (AITuringTest.jsx:35-45): the template literal, with the
JavaScript escapes spelled out. -/
def formatOutput (question userAnswer aiAnswer verdict : String) : String :=
  "# AI Turing Test Results\n\n\n## The Question\n" ++ question ++
  "\n\n\n## Human Response\n" ++ userAnswer ++
  "\n\n\n## AI Response\n" ++ aiAnswer ++
  "\n\n\n---\n" ++ verdict

/-- Sessions reachable through the rendered UI, starting from the initial
render. -/
inductive Reachable : Session → Prop where
  | init : Reachable initSession
  | genQ (s : Session) (res : GenResult) : Reachable s →
      Reachable (generateQuestionTrigger s res).1
  | typeAnswer (s : Session) (t : String) : Reachable s →
      s.state = .answering → s.isProcessing = false →
      Reachable (setUserAnswer s t)
  | submit (s : Session) (aiRes judgeRes : GenResult) : Reachable s →
      Reachable (submitAnswerTrigger s aiRes judgeRes).1
  | newTest (s : Session) : Reachable s → Reachable (startNewTestTrigger s)

/-- Invariant maintained by every trigger: the component is at rest
(`isProcessing` false), a session past 'initial' carries a non-blank
question, and a complete session carries non-blank answer and verdict
fields. -/
def Inv (s : Session) : Prop :=
  s.isProcessing = false ∧
  ((s.state = .answering ∨ s.state = .complete) → isBlank s.question = false) ∧
  (s.state = .complete →
    isBlank s.userAnswer = false ∧ isBlank s.aiAnswer = false ∧ isBlank s.verdict = false)

/-- A concrete complete session used to witness the reachability-guarded
theorems. -/
def exampleCompleteSession : Session :=
  { state := .complete, question := "What is your favorite memory?",
    userAnswer := "My first bike ride.",
    aiAnswer := "A summer afternoon by the lake.",
    verdict := "Verdict: Response 1 is human.",
    isProcessing := false, error := "" }

lemma replaceFirstList_of_not_contains (pat rep : List Char) :
    ∀ s : List Char, containsSub pat s = false → replaceFirstList pat rep s = s := by
  intro s
  induction s with
  | nil => intro _; rfl
  | cons c cs ih =>
    intro h
    simp only [containsSub, Bool.or_eq_false_iff] at h
    simp [replaceFirstList, h.1, ih h.2]

lemma jsReplace_eq_self (s pat rep : String)
    (h : containsSub pat.data s.data = false) : jsReplace s pat rep = s := by
  unfold jsReplace
  rw [replaceFirstList_of_not_contains pat.data rep.data s.data h]

/-- None of the three placeholder tokens occurs in JUDGE_PROMPT, so all three
replacements are identities. -/
lemma judgePromptOf_eq (q u a : String) : judgePromptOf q u a = JUDGE_PROMPT := by
  unfold judgePromptOf
  rw [jsReplace_eq_self JUDGE_PROMPT "{question}" q (by decide)]
  rw [jsReplace_eq_self JUDGE_PROMPT "{humanResponse}" u (by decide)]
  rw [jsReplace_eq_self JUDGE_PROMPT "{aiResponse}" a (by decide)]

lemma ne_empty_of_isBlank_false (s : String) (h : isBlank s = false) : s ≠ "" := by
  intro he
  rw [he] at h
  exact absurd h (by decide)

lemma generateQuestion_clears_isProcessing (s : Session) (res : GenResult) :
    (generateQuestion s res).1.isProcessing = false := by
  cases res with
  | failure => rfl
  | success t => cases hbt : isBlank t <;> simp [generateQuestion, actionInFlight, hbt]

lemma handleSubmitAnswer_clears_isProcessing (s : Session) (aiRes judgeRes : GenResult)
    (hu : isBlank s.userAnswer = false) :
    (handleSubmitAnswer s aiRes judgeRes).1.isProcessing = false := by
  cases aiRes with
  | failure => simp [handleSubmitAnswer, hu, actionInFlight]
  | success t =>
    cases hbt : isBlank t with
    | true => simp [handleSubmitAnswer, hu, hbt, actionInFlight]
    | false =>
      cases judgeRes with
      | failure => simp [handleSubmitAnswer, hu, hbt, actionInFlight]
      | success v =>
        cases hbv : isBlank v <;> simp [handleSubmitAnswer, hu, hbt, hbv, actionInFlight]

lemma reachable_inv : ∀ s : Session, Reachable s → Inv s := by
  intro s h
  induction h with
  | init => exact ⟨rfl, by simp [initSession], by simp [initSession]⟩
  | genQ s res hr ih =>
    by_cases hc : s.state = SState.initial ∧ s.isProcessing = false
    · obtain ⟨h1, h2⟩ := hc
      cases res with
      | failure =>
        simp_all [generateQuestionTrigger, generateQuestion, actionInFlight, Inv]
      | success t =>
        cases hbt : isBlank t with
        | true =>
          simp_all [generateQuestionTrigger, generateQuestion, actionInFlight, Inv]
        | false =>
          simp_all [generateQuestionTrigger, generateQuestion, actionInFlight, Inv]
    · simpa [generateQuestionTrigger, hc] using ih
  | typeAnswer s t hr h1 h2 ih =>
    obtain ⟨_, hq, _⟩ := ih
    refine ⟨h2, ?_, ?_⟩ <;> simp_all [setUserAnswer, Inv]
  | submit s aiRes judgeRes hr ih =>
    by_cases hc : s.state = SState.answering ∧ s.isProcessing = false
    · obtain ⟨h1, h2⟩ := hc
      obtain ⟨_, hq, _⟩ := ih
      cases hbu : isBlank s.userAnswer with
      | true =>
        simp_all [submitAnswerTrigger, handleSubmitAnswer, Inv]
      | false =>
        cases aiRes with
        | failure =>
          simp_all [submitAnswerTrigger, handleSubmitAnswer, actionInFlight, Inv]
        | success t =>
          cases hbt : isBlank t with
          | true =>
            simp_all [submitAnswerTrigger, handleSubmitAnswer, actionInFlight, Inv]
          | false =>
            cases judgeRes with
            | failure =>
              simp_all [submitAnswerTrigger, handleSubmitAnswer, actionInFlight, Inv]
            | success v =>
              cases hbv : isBlank v <;>
                simp_all [submitAnswerTrigger, handleSubmitAnswer, actionInFlight, Inv]
    · simpa [submitAnswerTrigger, hc] using ih
  | newTest s hr ih =>
    by_cases hc : s.state = SState.complete
    · simp_all [startNewTestTrigger, startNewTest, Inv]
    · simpa [startNewTestTrigger, hc] using ih

/-- The example complete session is reachable: generate a question, type an
answer, submit with a successful AI answer and a successful judgement. -/
lemma reachable_exampleCompleteSession : Reachable exampleCompleteSession := by
  have h0 := Reachable.init
  have h1 := Reachable.genQ initSession
    (GenResult.success "What is your favorite memory?") h0
  have e1 : (generateQuestionTrigger initSession
      (GenResult.success "What is your favorite memory?")).1 =
      (⟨SState.answering, "What is your favorite memory?", "", "", "", false, ""⟩ : Session) := by
    decide
  rw [e1] at h1
  have h2 := Reachable.typeAnswer _ "My first bike ride." h1 rfl rfl
  rw [show setUserAnswer
      (⟨SState.answering, "What is your favorite memory?", "", "", "", false, ""⟩ : Session)
      "My first bike ride." =
      (⟨SState.answering, "What is your favorite memory?", "My first bike ride.", "", "",
        false, ""⟩ : Session) from rfl] at h2
  have h3 := Reachable.submit _ (GenResult.success "A summer afternoon by the lake.")
    (GenResult.success "Verdict: Response 1 is human.") h2
  have e3 : (submitAnswerTrigger
      (⟨SState.answering, "What is your favorite memory?", "My first bike ride.", "", "",
        false, ""⟩ : Session)
      (GenResult.success "A summer afternoon by the lake.")
      (GenResult.success "Verdict: Response 1 is human.")).1 = exampleCompleteSession := by
    decide
  rw [e3] at h3
  exact h3

/-- C1: contrary to the claim, the prompt sent by the judgment step never
contains the question, the human answer or the AI answer: JUDGE_PROMPT holds no
occurrence of the placeholder tokens, so all three `.replace` calls are
identities, and at the concrete scenario inputs the resulting prompt contains
none of the three texts. -/
theorem C1_judge_prompt_never_contains_inputs :
    (∀ q u a : String, judgePromptOf q u a = JUDGE_PROMPT) ∧
    containsSub "What is your favorite memory?".data
      (judgePromptOf "What is your favorite memory?" "My first bike ride."
        "A summer afternoon by the lake.").data = false ∧
    containsSub "My first bike ride.".data
      (judgePromptOf "What is your favorite memory?" "My first bike ride."
        "A summer afternoon by the lake.").data = false ∧
    containsSub "A summer afternoon by the lake.".data
      (judgePromptOf "What is your favorite memory?" "My first bike ride."
        "A summer afternoon by the lake.").data = false := by
  refine ⟨judgePromptOf_eq, ?_, ?_, ?_⟩ <;> rw [judgePromptOf_eq] <;> decide

/-- C2 counterexample: in state Answering with question "Q", human answer "H"
and empty prior aiAnswer, when the AI-answer call succeeds with "A" and the
judge call then fails, the resulting session holds aiAnswer = "A" ≠ "": the
result of the succeeded first call is persisted on the session, not
discarded as the claim states. -/
theorem C2_counterexample :
    (handleSubmitAnswer (⟨SState.answering, "Q", "H", "", "", false, ""⟩ : Session)
      (GenResult.success "A") GenResult.failure).1.aiAnswer = "A" ∧
    ("A" : String) ≠ "" :=
  ⟨by decide, by decide⟩

/-- C2 (amended): if the AI-answer call succeeds with a non-blank answer and
the judge call fails (throws, or returns a blank completion), the session
stays in Answering, errorMessage is set, isProcessing is false — and the
aiAnswer field retains the answer obtained from the succeeded first call (it
is persisted, though never rendered, since output rendering happens only in
Complete). -/
theorem C2_amended_judge_failure :
    ∀ (s : Session) (t : String) (judgeRes : GenResult),
      s.state = SState.answering →
      isBlank s.userAnswer = false →
      isBlank t = false →
      (∀ v, judgeRes = GenResult.success v → isBlank v = true) →
      (handleSubmitAnswer s (GenResult.success t) judgeRes).1.state = SState.answering ∧
      (handleSubmitAnswer s (GenResult.success t) judgeRes).1.error = errProcess ∧
      (handleSubmitAnswer s (GenResult.success t) judgeRes).1.isProcessing = false ∧
      (handleSubmitAnswer s (GenResult.success t) judgeRes).1.aiAnswer = t := by
  intro s t judgeRes hst hu ht hj
  cases judgeRes with
  | failure => simp [handleSubmitAnswer, hu, ht, actionInFlight, hst]
  | success v =>
    have hv := hj v rfl
    simp [handleSubmitAnswer, hu, ht, hv, actionInFlight, hst]

/-- C2 witness: the amended statement at a concrete answering session with a
succeeding AI-answer call and a failing judge call. -/
theorem C2_amended_witness :
    ((⟨SState.answering, "Q", "H", "", "", false, ""⟩ : Session).state = SState.answering ∧
     isBlank (⟨SState.answering, "Q", "H", "", "", false, ""⟩ : Session).userAnswer = false ∧
     isBlank "A" = false) ∧
    (handleSubmitAnswer (⟨SState.answering, "Q", "H", "", "", false, ""⟩ : Session)
      (GenResult.success "A") GenResult.failure).1.state = SState.answering ∧
    (handleSubmitAnswer (⟨SState.answering, "Q", "H", "", "", false, ""⟩ : Session)
      (GenResult.success "A") GenResult.failure).1.error = errProcess ∧
    (handleSubmitAnswer (⟨SState.answering, "Q", "H", "", "", false, ""⟩ : Session)
      (GenResult.success "A") GenResult.failure).1.isProcessing = false ∧
    (handleSubmitAnswer (⟨SState.answering, "Q", "H", "", "", false, ""⟩ : Session)
      (GenResult.success "A") GenResult.failure).1.aiAnswer = "A" :=
  ⟨⟨rfl, by decide, by decide⟩,
    C2_amended_judge_failure (⟨SState.answering, "Q", "H", "", "", false, ""⟩ : Session)
      "A" GenResult.failure rfl (by decide) (by decide)
      (fun v hv => GenResult.noConfusion hv)⟩

/-- C3: while isProcessing is true, invoking the generate-question or
submit-answer trigger leaves the session unchanged and issues no network
call (the rendered buttons are disabled). -/
theorem C3_trigger_noop_while_processing :
    ∀ (s : Session) (res aiRes judgeRes : GenResult),
      s.isProcessing = true →
      generateQuestionTrigger s res = (s, []) ∧
      submitAnswerTrigger s aiRes judgeRes = (s, []) := by
  intro s res aiRes judgeRes h
  constructor <;> simp [generateQuestionTrigger, submitAnswerTrigger, h]

/-- C3 witness: a processing session is untouched by both triggers. -/
theorem C3_witness :
    (⟨SState.answering, "Q", "H", "", "", true, ""⟩ : Session).isProcessing = true ∧
    generateQuestionTrigger (⟨SState.answering, "Q", "H", "", "", true, ""⟩ : Session)
      GenResult.failure = ((⟨SState.answering, "Q", "H", "", "", true, ""⟩ : Session), []) ∧
    submitAnswerTrigger (⟨SState.answering, "Q", "H", "", "", true, ""⟩ : Session)
      GenResult.failure GenResult.failure =
      ((⟨SState.answering, "Q", "H", "", "", true, ""⟩ : Session), []) :=
  ⟨rfl,
    (C3_trigger_noop_while_processing (⟨SState.answering, "Q", "H", "", "", true, ""⟩ : Session)
      GenResult.failure GenResult.failure GenResult.failure rfl).1,
    (C3_trigger_noop_while_processing (⟨SState.answering, "Q", "H", "", "", true, ""⟩ : Session)
      GenResult.failure GenResult.failure GenResult.failure rfl).2⟩

/-- C4: starting a new test from any reachable Complete session yields
exactly the original initial session: every field is reset to its initial
value. -/
theorem C4_startNewTest_full_reset :
    ∀ s : Session, Reachable s → s.state = SState.complete →
      startNewTest s = initSession := by
  intro s hr _
  have hp := (reachable_inv s hr).1
  cases s
  simp_all [startNewTest, initSession]

/-- C4 witness: the reachable example complete session resets to the initial
session. -/
theorem C4_witness :
    Reachable exampleCompleteSession ∧
    exampleCompleteSession.state = SState.complete ∧
    startNewTest exampleCompleteSession = initSession :=
  ⟨reachable_exampleCompleteSession, rfl,
    C4_startNewTest_full_reset exampleCompleteSession reachable_exampleCompleteSession rfl⟩

/-- C5: both in-flight handlers run with isProcessing set to true, and every
run that issues a network call ends with isProcessing reset to false,
whether it finished by success or by failure. -/
theorem C5_isProcessing_lifecycle :
    ∀ (s : Session) (res aiRes judgeRes : GenResult),
      (actionInFlight s).isProcessing = true ∧
      (generateQuestion s res).1.isProcessing = false ∧
      ((handleSubmitAnswer s aiRes judgeRes).2 ≠ [] →
        (handleSubmitAnswer s aiRes judgeRes).1.isProcessing = false) := by
  intro s res aiRes judgeRes
  refine ⟨rfl, generateQuestion_clears_isProcessing s res, ?_⟩
  intro hcalls
  cases hbu : isBlank s.userAnswer with
  | true => exact absurd (by simp [handleSubmitAnswer, hbu]) hcalls
  | false => exact handleSubmitAnswer_clears_isProcessing s aiRes judgeRes hbu

/-- C5 witness: a failing submission from a concrete answering session issues
a call and ends with isProcessing false. -/
theorem C5_witness :
    (handleSubmitAnswer (⟨SState.answering, "Q2", "H2", "", "", false, ""⟩ : Session)
      GenResult.failure GenResult.failure).2 ≠ [] ∧
    (actionInFlight (⟨SState.answering, "Q2", "H2", "", "", false, ""⟩ : Session)).isProcessing
      = true ∧
    (generateQuestion (⟨SState.answering, "Q2", "H2", "", "", false, ""⟩ : Session)
      GenResult.failure).1.isProcessing = false ∧
    (handleSubmitAnswer (⟨SState.answering, "Q2", "H2", "", "", false, ""⟩ : Session)
      GenResult.failure GenResult.failure).1.isProcessing = false :=
  ⟨by decide,
    (C5_isProcessing_lifecycle (⟨SState.answering, "Q2", "H2", "", "", false, ""⟩ : Session)
      GenResult.failure GenResult.failure GenResult.failure).1,
    (C5_isProcessing_lifecycle (⟨SState.answering, "Q2", "H2", "", "", false, ""⟩ : Session)
      GenResult.failure GenResult.failure GenResult.failure).2.1,
    (C5_isProcessing_lifecycle (⟨SState.answering, "Q2", "H2", "", "", false, ""⟩ : Session)
      GenResult.failure GenResult.failure GenResult.failure).2.2 (by decide)⟩

/-- C6: a blank completion is rejected by every generation call: the blank
text is never stored as question, aiAnswer or verdict; for the question call
the state and question are unchanged, errorMessage ends non-empty and
isProcessing ends false. -/
theorem C6_blank_completion_rejected :
    ∀ (s : Session) (t : String) (aiRes judgeRes : GenResult),
      isBlank t = true →
      ((generateQuestion s (GenResult.success t)).1.question = s.question ∧
       (generateQuestion s (GenResult.success t)).1.state = s.state ∧
       (generateQuestion s (GenResult.success t)).1.error ≠ "" ∧
       (generateQuestion s (GenResult.success t)).1.isProcessing = false) ∧
      (handleSubmitAnswer s (GenResult.success t) judgeRes).1.aiAnswer = s.aiAnswer ∧
      (handleSubmitAnswer s aiRes (GenResult.success t)).1.verdict = s.verdict ∧
      (handleSubmitAnswer s aiRes (GenResult.success t)).1.state = s.state := by
  intro s t aiRes judgeRes hb
  refine ⟨⟨?_, ?_, ?_, ?_⟩, ?_, ?_, ?_⟩
  · simp [generateQuestion, hb, actionInFlight]
  · simp [generateQuestion, hb, actionInFlight]
  · have e : (generateQuestion s (GenResult.success t)).1.error = errQuestion := by
      simp [generateQuestion, hb, actionInFlight]
    rw [e]; decide
  · simp [generateQuestion, hb, actionInFlight]
  · cases hbu : isBlank s.userAnswer <;>
      simp [handleSubmitAnswer, hbu, hb, actionInFlight]
  · cases hbu : isBlank s.userAnswer with
    | true => simp [handleSubmitAnswer, hbu]
    | false =>
      cases aiRes with
      | failure => simp [handleSubmitAnswer, hbu, actionInFlight]
      | success t2 =>
        cases hbt2 : isBlank t2 <;>
          simp [handleSubmitAnswer, hbu, hbt2, hb, actionInFlight]
  · cases hbu : isBlank s.userAnswer with
    | true => simp [handleSubmitAnswer, hbu]
    | false =>
      cases aiRes with
      | failure => simp [handleSubmitAnswer, hbu, actionInFlight]
      | success t2 =>
        cases hbt2 : isBlank t2 <;>
          simp [handleSubmitAnswer, hbu, hbt2, hb, actionInFlight]

/-- C6 witness: an empty question completion leaves the initial session in
Initial with an error set, and blank AI-answer or judge completions leave
aiAnswer and verdict untouched. -/
theorem C6_witness :
    isBlank "" = true ∧
    ((generateQuestion initSession (GenResult.success "")).1.question =
        initSession.question ∧
     (generateQuestion initSession (GenResult.success "")).1.state = initSession.state ∧
     (generateQuestion initSession (GenResult.success "")).1.error ≠ "" ∧
     (generateQuestion initSession (GenResult.success "")).1.isProcessing = false) ∧
    (handleSubmitAnswer initSession (GenResult.success "") GenResult.failure).1.aiAnswer =
      initSession.aiAnswer ∧
    (handleSubmitAnswer initSession GenResult.failure (GenResult.success "")).1.verdict =
      initSession.verdict ∧
    (handleSubmitAnswer initSession GenResult.failure (GenResult.success "")).1.state =
      initSession.state :=
  ⟨by decide,
    C6_blank_completion_rejected initSession "" GenResult.failure GenResult.failure (by decide)⟩

/-- C7: submitting a blank humanAnswer issues no network call, sets
errorMessage, and changes nothing else on the session. -/
theorem C7_empty_answer_no_call :
    ∀ (s : Session) (aiRes judgeRes : GenResult),
      isBlank s.userAnswer = true →
      (handleSubmitAnswer s aiRes judgeRes).2 = [] ∧
      (handleSubmitAnswer s aiRes judgeRes).1.error ≠ "" ∧
      (handleSubmitAnswer s aiRes judgeRes).1.state = s.state ∧
      (handleSubmitAnswer s aiRes judgeRes).1 = { s with error := errValidation } := by
  intro s aiRes judgeRes hb
  refine ⟨by simp [handleSubmitAnswer, hb], ?_, by simp [handleSubmitAnswer, hb],
    by simp [handleSubmitAnswer, hb]⟩
  have e : (handleSubmitAnswer s aiRes judgeRes).1.error = errValidation := by
    simp [handleSubmitAnswer, hb]
  rw [e]; decide

/-- C7 witness: submitting the empty answer in a concrete answering session. -/
theorem C7_witness :
    isBlank (⟨SState.answering, "Q3", "", "", "", false, ""⟩ : Session).userAnswer = true ∧
    (handleSubmitAnswer (⟨SState.answering, "Q3", "", "", "", false, ""⟩ : Session)
      GenResult.failure GenResult.failure).2 = [] ∧
    (handleSubmitAnswer (⟨SState.answering, "Q3", "", "", "", false, ""⟩ : Session)
      GenResult.failure GenResult.failure).1.error ≠ "" ∧
    (handleSubmitAnswer (⟨SState.answering, "Q3", "", "", "", false, ""⟩ : Session)
      GenResult.failure GenResult.failure).1.state =
      (⟨SState.answering, "Q3", "", "", "", false, ""⟩ : Session).state ∧
    (handleSubmitAnswer (⟨SState.answering, "Q3", "", "", "", false, ""⟩ : Session)
      GenResult.failure GenResult.failure).1 =
      { (⟨SState.answering, "Q3", "", "", "", false, ""⟩ : Session) with
        error := errValidation } :=
  ⟨by decide,
    C7_empty_answer_no_call (⟨SState.answering, "Q3", "", "", "", false, ""⟩ : Session)
      GenResult.failure GenResult.failure (by decide)⟩

/-- C8: for every reachable Complete session the formatted document contains,
in order, the title, the question under its heading, the human response under
its heading, the AI response under its heading, the separator, and the
verdict; none of the four content fields is empty. -/
theorem C8_complete_output_document :
    ∀ s : Session, Reachable s → s.state = SState.complete →
      (s.question ≠ "" ∧ s.userAnswer ≠ "" ∧ s.aiAnswer ≠ "" ∧ s.verdict ≠ "") ∧
      ∃ g1 g2 g3 g4 : List Char,
        (formatOutput s.question s.userAnswer s.aiAnswer s.verdict).data =
          "# AI Turing Test Results".data ++ g1 ++ "## The Question\n".data ++
          s.question.data ++ g2 ++ "## Human Response\n".data ++ s.userAnswer.data ++
          g3 ++ "## AI Response\n".data ++ s.aiAnswer.data ++ g4 ++ "---\n".data ++
          s.verdict.data := by
  intro s hr hc
  obtain ⟨_, hq, hrest⟩ := reachable_inv s hr
  obtain ⟨hu, ha, hv⟩ := hrest hc
  refine ⟨⟨ne_empty_of_isBlank_false _ (hq (Or.inr hc)), ne_empty_of_isBlank_false _ hu,
    ne_empty_of_isBlank_false _ ha, ne_empty_of_isBlank_false _ hv⟩,
    "\n\n\n".data, "\n\n\n".data, "\n\n\n".data, "\n\n\n".data, ?_⟩
  simp only [formatOutput, String.data_append, List.append_assoc]
  rfl

/-- C8 witness: the formatted document of the reachable example complete
session. -/
theorem C8_witness :
    Reachable exampleCompleteSession ∧
    exampleCompleteSession.state = SState.complete ∧
    (exampleCompleteSession.question ≠ "" ∧ exampleCompleteSession.userAnswer ≠ "" ∧
      exampleCompleteSession.aiAnswer ≠ "" ∧ exampleCompleteSession.verdict ≠ "") ∧
    ∃ g1 g2 g3 g4 : List Char,
      (formatOutput exampleCompleteSession.question exampleCompleteSession.userAnswer
        exampleCompleteSession.aiAnswer exampleCompleteSession.verdict).data =
        "# AI Turing Test Results".data ++ g1 ++ "## The Question\n".data ++
        exampleCompleteSession.question.data ++ g2 ++ "## Human Response\n".data ++
        exampleCompleteSession.userAnswer.data ++ g3 ++ "## AI Response\n".data ++
        exampleCompleteSession.aiAnswer.data ++ g4 ++ "---\n".data ++
        exampleCompleteSession.verdict.data :=
  ⟨reachable_exampleCompleteSession, rfl,
    (C8_complete_output_document exampleCompleteSession
      reachable_exampleCompleteSession rfl).1,
    (C8_complete_output_document exampleCompleteSession
      reachable_exampleCompleteSession rfl).2⟩

/-- C9: every failed run of the question-generation action (service failure
or blank completion) writes only errorMessage and isProcessing: the whole
resulting session is the input session with just those two fields changed,
so question, userAnswer, aiAnswer and verdict are untouched. -/
theorem C9_generateQuestion_failure_frame :
    ∀ (s : Session) (res : GenResult),
      (∀ t, res = GenResult.success t → isBlank t = true) →
      (generateQuestion s res).1 = { s with error := errQuestion, isProcessing := false } ∧
      (generateQuestion s res).1.question = s.question ∧
      (generateQuestion s res).1.userAnswer = s.userAnswer ∧
      (generateQuestion s res).1.aiAnswer = s.aiAnswer ∧
      (generateQuestion s res).1.verdict = s.verdict := by
  intro s res h
  cases res with
  | failure => exact ⟨rfl, rfl, rfl, rfl, rfl⟩
  | success t =>
    have hb := h t rfl
    have e : (generateQuestion s (GenResult.success t)).1 =
        { s with error := errQuestion, isProcessing := false } := by
      simp [generateQuestion, hb, actionInFlight]
    rw [e]
    exact ⟨rfl, rfl, rfl, rfl, rfl⟩

/-- C9 witness: a service failure of the question call on the initial
session. -/
theorem C9_witness :
    (∀ t, GenResult.failure = GenResult.success t → isBlank t = true) ∧
    (generateQuestion initSession GenResult.failure).1 =
      { initSession with error := errQuestion, isProcessing := false } ∧
    (generateQuestion initSession GenResult.failure).1.question = initSession.question ∧
    (generateQuestion initSession GenResult.failure).1.userAnswer = initSession.userAnswer ∧
    (generateQuestion initSession GenResult.failure).1.aiAnswer = initSession.aiAnswer ∧
    (generateQuestion initSession GenResult.failure).1.verdict = initSession.verdict :=
  ⟨fun _ ht => GenResult.noConfusion ht,
    C9_generateQuestion_failure_frame initSession GenResult.failure
      (fun _ ht => GenResult.noConfusion ht)⟩

/-- C10: startNewTest never writes the isProcessing flag: it is identical
before and after, for every session. -/
theorem C10_startNewTest_preserves_isProcessing :
    ∀ s : Session, (startNewTest s).isProcessing = s.isProcessing :=
  fun _ => rfl

end AITuringTest
